import Mathlib

/-!
# Verification of the EosSdk file-descriptor interest core (file.cpp)

This development shallowly embeds the descriptor-interest state machine of
`file.cpp` and the inline `sdk` manager getters (`inline/sdk.h`):

* the two global registry maps `fileHandlerToFileHandlerSm` and
  `fileHandlerSmToFileHandler` updated by the `file_handler`
  constructor/destructor;
* `get_file_descriptor_sm` (get-or-create of a per-descriptor record);
* the three interest setters `read_interest_is`, `write_interest_is`,
  `exception_interest_is` and `FileHandlerSm::maybeCleanupAfterFileDescriptor`;
* the dispatch methods `FileDescriptorSm::handleReadable` /
  `handleWritable` / `handleExceptionPending`;
* the lazily-initializing `sdk::get_*_mgr` getters.

C++ pointers are modelled as `Nat` with `0` playing the role of the null
pointer; `std::map` is modelled as an association list with
lookup/insert/erase operations (`alookup`/`ainsert`/`aerase`), where insert
replaces any existing binding for the key, matching unique-key `std::map`
semantics. A C++ `assert` failure aborts the process, so operations that can
hit an assert return `Option`: `none` means the process aborted and no
post-state is observable.
-/

/-- Association-list lookup, modelling read access to a `std::map`
(`find` / `operator[]` on a present key): returns the value of the first
binding of the key, if any. -/
def alookup {α β : Type} [DecidableEq α] : List (α × β) → α → Option β
  | [], _ => none
  | (k', v) :: rest, k => if k' = k then some v else alookup rest k

/-- Association-list erase, modelling `std::map::erase`: removes every
binding of the key. -/
def aerase {α β : Type} [DecidableEq α] : List (α × β) → α → List (α × β)
  | [], _ => []
  | (k', v) :: rest, k =>
      if k' = k then aerase rest k else (k', v) :: aerase rest k

/-- Association-list insert-or-assign, modelling `std::map::operator[] = v`:
the key is bound to `v` and any previous binding is dropped. -/
def ainsert {α β : Type} [DecidableEq α] (m : List (α × β)) (k : α) (v : β) :
    List (α × β) :=
  (k, v) :: aerase m k

/-- Number of bindings of a key in an association list. -/
def countKey {α β : Type} [DecidableEq α] : List (α × β) → α → Nat
  | [], _ => 0
  | (k', _) :: rest, k =>
      if k' = k then countKey rest k + 1 else countKey rest k

/-- The per-descriptor record behind `FileDescriptorSm`: the
`Tac::FileDescriptor` entity with its `descriptor` attribute and the three
`notifyOn*` interest flags (all false on creation,
`Tac::FileDescriptor::FileDescriptorIs`). -/
structure FileDescriptor where
  descriptor : Int
  notifyOnReadable : Bool
  notifyOnWritable : Bool
  notifyOnException : Bool
deriving DecidableEq, Repr

/-- A freshly created `Tac::FileDescriptor`: default attribute values. -/
def FileDescriptor.fresh : FileDescriptor :=
  { descriptor := 0, notifyOnReadable := false, notifyOnWritable := false,
    notifyOnException := false }

/-- `fileDescriptor()->descriptorIs( fd )` (file.cpp line 35). -/
def FileDescriptor.descriptorIs (r : FileDescriptor) (fd : Int) :
    FileDescriptor :=
  { r with descriptor := fd }

/-- `fileDescriptor()->notifyOnReadableIs( interest )` (file.cpp line 42). -/
def FileDescriptor.notifyOnReadableIs (r : FileDescriptor) (b : Bool) :
    FileDescriptor :=
  { r with notifyOnReadable := b }

/-- `fileDescriptor()->notifyOnWritableIs( interest )` (file.cpp line 53). -/
def FileDescriptor.notifyOnWritableIs (r : FileDescriptor) (b : Bool) :
    FileDescriptor :=
  { r with notifyOnWritable := b }

/-- `fileDescriptor()->notifyOnExceptionIs( interest )` (file.cpp line 64). -/
def FileDescriptor.notifyOnExceptionIs (r : FileDescriptor) (b : Bool) :
    FileDescriptor :=
  { r with notifyOnException := b }

/-- The global state of the core of file.cpp.  `file_handler` objects and
`FileHandlerSm` nodes are identified by `Nat` (their addresses); `0` is the
null pointer, a real object never has identity `0`.  `smDescriptors` carries,
for each live `FileHandlerSm`, its keyed collection of `FileDescriptorSm`s
(descriptor number to `FileDescriptor` record); the collection is created
empty with the sm and discarded when the sm's last reference dies in the
`file_handler` destructor.  `nextSmId` is the allocator for fresh
`FileHandlerSm` identities. -/
structure CoreState where
  fileHandlerToFileHandlerSm : List (Nat × Nat)
  fileHandlerSmToFileHandler : List (Nat × Nat)
  smDescriptors : List (Nat × List (Int × FileDescriptor))
  nextSmId : Nat
deriving DecidableEq, Repr

/-- The state at program start: both registry maps empty, no state machines
allocated. -/
def initState : CoreState :=
  { fileHandlerToFileHandlerSm := [], fileHandlerSmToFileHandler := [],
    smDescriptors := [], nextSmId := 1 }

/-- The descriptor collection of state machine `smv` (empty when `smv` owns
no collection). -/
def descMap (s : CoreState) (smv : Nat) : List (Int × FileDescriptor) :=
  (alookup s.smDescriptors smv).getD []

/-- `file_handler::file_handler()` (file.cpp lines 14-18):
`FileHandlerSm::FileHandlerSmIs()` allocates a fresh state machine with an
empty descriptor collection, then both registry maps record the association
`handler h ↔ state machine`. -/
def file_handler_ctor (h : Nat) (s : CoreState) : CoreState :=
  let smv := s.nextSmId
  { fileHandlerSmToFileHandler := ainsert s.fileHandlerSmToFileHandler smv h
    fileHandlerToFileHandlerSm := ainsert s.fileHandlerToFileHandlerSm h smv
    smDescriptors := ainsert s.smDescriptors smv []
    nextSmId := s.nextSmId + 1 }

/-- `file_handler::~file_handler()` (file.cpp lines 20-24): look up the
handler's state machine (`operator[]`, present for a live handler), erase the
sm→handler entry, erase the handler→sm entry.  Dropping the map's reference
destroys the state machine, so its descriptor collection goes away too. -/
def file_handler_dtor (h : Nat) (s : CoreState) : CoreState :=
  let smv := (alookup s.fileHandlerToFileHandlerSm h).getD 0
  { s with
    fileHandlerSmToFileHandler := aerase s.fileHandlerSmToFileHandler smv
    fileHandlerToFileHandlerSm := aerase s.fileHandlerToFileHandlerSm h
    smDescriptors := aerase s.smDescriptors smv }

/-- `get_file_descriptor_sm` (file.cpp lines 26-37): look up the handler's
state machine (`operator[]` default-inserts a null `Ptr` on a miss, and
`assert( fhSm )` then aborts: modelled as `none`, the insert being
unobservable after the abort); get-or-create the `FileDescriptorSm` keyed by
`fd` (`fileDescriptorSmIs`, fresh `Tac::FileDescriptor` when absent); set its
`descriptor` attribute to `fd`; return it.  The result carries the updated
state, the state machine's identity and the record. -/
def get_file_descriptor_sm (h : Nat) (fd : Int) (s : CoreState) :
    Option (CoreState × Nat × FileDescriptor) :=
  match alookup s.fileHandlerToFileHandlerSm h with
  | none => none
  | some smv =>
      if smv = 0 then none
      else
        let fds := descMap s smv
        let r0 := (alookup fds fd).getD FileDescriptor.fresh
        let r1 := r0.descriptorIs fd
        some ({ s with
                  smDescriptors :=
                    ainsert s.smDescriptors smv (ainsert fds fd r1) },
              smv, r1)

/-- `FileHandlerSm::maybeCleanupAfterFileDescriptor` (file.cpp lines 76-89):
look up the descriptor sm for `fd` (`assert( fdSm )` aborts on a miss:
`none`); if none of the three interest flags is set, delete it from the
collection (`fileDescriptorSmDel`). -/
def maybeCleanupAfterFileDescriptor (smv : Nat) (fd : Int) (s : CoreState) :
    Option CoreState :=
  let fds := descMap s smv
  match alookup fds fd with
  | none => none
  | some r =>
      if !r.notifyOnReadable && !r.notifyOnWritable && !r.notifyOnException
      then
        some { s with smDescriptors := ainsert s.smDescriptors smv
                        (aerase fds fd) }
      else some s

/-- Which of the three interest flags an operation touches; doubles as the
event kind delivered to the dispatch methods. -/
inductive InterestKind : Type
  | readable
  | writable
  | exception
deriving DecidableEq, Repr

/-- Read the flag selected by `k`. -/
def getFlag : InterestKind → FileDescriptor → Bool
  | .readable, r => r.notifyOnReadable
  | .writable, r => r.notifyOnWritable
  | .exception, r => r.notifyOnException

/-- Write the flag selected by `k` (the corresponding `notifyOn*Is` call). -/
def setFlag : InterestKind → Bool → FileDescriptor → FileDescriptor
  | .readable, b, r => r.notifyOnReadableIs b
  | .writable, b, r => r.notifyOnWritableIs b
  | .exception, b, r => r.notifyOnExceptionIs b

/-- The common body of `file_handler::read_interest_is`,
`write_interest_is` and `exception_interest_is` (file.cpp lines 39-70),
which differ only in the flag they touch: get (or create) the descriptor sm
via `get_file_descriptor_sm`, set the selected flag to `interest`, and when
`interest` is false run `maybeCleanupAfterFileDescriptor` on the owning
state machine. -/
def interest_is (k : InterestKind) (h : Nat) (fd : Int) (interest : Bool)
    (s : CoreState) : Option CoreState :=
  match get_file_descriptor_sm h fd s with
  | none => none
  | some (s1, smv, r1) =>
      let r2 := setFlag k interest r1
      let s2 : CoreState :=
        { s1 with smDescriptors :=
            ainsert s1.smDescriptors smv (ainsert (descMap s1 smv) fd r2) }
      if interest then some s2
      else maybeCleanupAfterFileDescriptor smv fd s2

/-- `file_handler::read_interest_is` (file.cpp lines 39-48). -/
def read_interest_is : Nat → Int → Bool → CoreState → Option CoreState :=
  interest_is .readable

/-- `file_handler::write_interest_is` (file.cpp lines 50-59). -/
def write_interest_is : Nat → Int → Bool → CoreState → Option CoreState :=
  interest_is .writable

/-- `file_handler::exception_interest_is` (file.cpp lines 61-70). -/
def exception_interest_is : Nat → Int → Bool → CoreState → Option CoreState :=
  interest_is .exception

/-- `FileDescriptorSm::handleReadable` (file.cpp lines 91-97) and its
writable/exception siblings, parameterized by the event kind: resolve the
owning `file_handler` through `fileHandlerSmToFileHandler` (`operator[]`
default-inserts null on a miss and `assert( fh )` aborts: modelled as
`none`, no post-state being observable after the abort) and invoke that
handler's typed callback with the descriptor number.  The result records
which handler was invoked, with which event kind and descriptor, and the
core state as the adapter leaves it for the callback. -/
def handleEvent (k : InterestKind) (smv : Nat) (fd : Int) (s : CoreState) :
    Option (Nat × InterestKind × Int × CoreState) :=
  match alookup s.fileHandlerSmToFileHandler smv with
  | none => none
  | some fh => if fh = 0 then none else some (fh, k, fd, s)

/-- `FileDescriptorSm::handleReadable` (file.cpp lines 91-97). -/
def handleReadable : Nat → Int → CoreState →
    Option (Nat × InterestKind × Int × CoreState) :=
  handleEvent .readable

/-- `FileDescriptorSm::handleWritable` (file.cpp lines 99-105). -/
def handleWritable : Nat → Int → CoreState →
    Option (Nat × InterestKind × Int × CoreState) :=
  handleEvent .writable

/-- `FileDescriptorSm::handleExceptionPending` (file.cpp lines 107-113). -/
def handleExceptionPending : Nat → Int → CoreState →
    Option (Nat × InterestKind × Int × CoreState) :=
  handleEvent .exception

/-- All three interest flags of a record are clear: the condition under
which `maybeCleanupAfterFileDescriptor` deletes the record. -/
def allFlagsFalse (r : FileDescriptor) : Bool :=
  !r.notifyOnReadable && !r.notifyOnWritable && !r.notifyOnException

/-- The net effect of one interest-setter call on the owning state
machine's descriptor collection: get-or-create the record for `fd`, stamp
its descriptor, set the selected flag, and drop the record when `interest`
is false and no flag remains set. -/
def interestEffect (k : InterestKind) (fd : Int) (b : Bool)
    (F : List (Int × FileDescriptor)) : List (Int × FileDescriptor) :=
  let r1 := ((alookup F fd).getD FileDescriptor.fresh).descriptorIs fd
  let r2 := setFlag k b r1
  if b then ainsert F fd r2
  else if allFlagsFalse r2 then aerase F fd
  else ainsert F fd r2

/-- One public operation of the core: handler construction, handler
destruction, or an interest-setter call (`k` selecting among
`read_interest_is`, `write_interest_is` and `exception_interest_is`). -/
inductive Op : Type
  | opCtor (h : Nat)
  | opDtor (h : Nat)
  | opInterest (k : InterestKind) (h : Nat) (fd : Int) (b : Bool)
deriving DecidableEq, Repr

/-- Run one operation; `none` when the operation hits a failing assert. -/
def runOp (s : CoreState) : Op → Option CoreState
  | .opCtor h => some (file_handler_ctor h s)
  | .opDtor h => some (file_handler_dtor h s)
  | .opInterest k h fd b => interest_is k h fd b s

/-- Run a sequence of operations, stopping when one aborts. -/
def runOps (s : CoreState) : List Op → Option CoreState
  | [] => some s
  | op :: rest =>
      match runOp s op with
      | none => none
      | some s' => runOps s' rest

/-- The operation sequences a C++ caller can actually produce: a handler is
constructed only at a non-null address not currently hosting a live handler,
destroyed only while live, and the interest setters are called only on live
handlers (so they complete without asserting). -/
def validOps (s : CoreState) : List Op → Bool
  | [] => true
  | .opCtor h :: rest =>
      decide (h ≠ 0) && (alookup s.fileHandlerToFileHandlerSm h).isNone &&
        validOps (file_handler_ctor h s) rest
  | .opDtor h :: rest =>
      (alookup s.fileHandlerToFileHandlerSm h).isSome &&
        validOps (file_handler_dtor h s) rest
  | .opInterest k h fd b :: rest =>
      match interest_is k h fd b s with
      | none => false
      | some s' => validOps s' rest

/-- The Identity Registry invariant: the handler→sm and sm→handler maps are
exact inverses, every recorded state machine is non-null and below the
allocator's next identity (so fresh machines are genuinely new), each
handler has at most one binding, and the allocator never hands out the null
identity. -/
def registryInv (s : CoreState) : Prop :=
  (∀ h smv, alookup s.fileHandlerToFileHandlerSm h = some smv ↔
      alookup s.fileHandlerSmToFileHandler smv = some h) ∧
  (∀ smv h, alookup s.fileHandlerSmToFileHandler smv = some h →
      smv ≠ 0 ∧ smv < s.nextSmId) ∧
  (∀ h, countKey s.fileHandlerToFileHandlerSm h ≤ 1) ∧
  0 < s.nextSmId

/-- The descriptor-record invariant: every record present in some state
machine's collection has at least one interest flag set. -/
def descInv (s : CoreState) : Prop :=
  ∀ smv fds, alookup s.smDescriptors smv = some fds →
    ∀ fd r, alookup fds fd = some r →
      r.notifyOnReadable = true ∨ r.notifyOnWritable = true ∨
        r.notifyOnException = true

/-- The manager-pointer fields of the `sdk` class (inline/sdk.h).  Manager
pointers are modelled as `Nat` with `0` for the null pointer; a
default-constructed `sdk` has every field null. -/
structure SdkState where
  acl_mgr_ : Nat
  agent_mgr_ : Nat
  decap_group_mgr_ : Nat
  directflow_mgr_ : Nat
  eth_intf_mgr_ : Nat
  eth_phy_intf_mgr_ : Nat
  fib_mgr_ : Nat
  intf_mgr_ : Nat
  ip_route_mgr_ : Nat
  mac_table_mgr_ : Nat
  mlag_mgr_ : Nat
  mount_mgr_ : Nat
  mpls_route_mgr_ : Nat
  neighbor_table_mgr_ : Nat
  nexthop_group_mgr_ : Nat
  policy_map_mgr_ : Nat
  system_mgr_ : Nat
deriving DecidableEq, Repr

/-- A freshly constructed `sdk` object: every manager pointer null. -/
def initSdkState : SdkState :=
  { acl_mgr_ := 0, agent_mgr_ := 0, decap_group_mgr_ := 0, directflow_mgr_ := 0, eth_intf_mgr_ := 0, eth_phy_intf_mgr_ := 0, fib_mgr_ := 0, intf_mgr_ := 0, ip_route_mgr_ := 0, mac_table_mgr_ := 0, mlag_mgr_ := 0, mount_mgr_ := 0, mpls_route_mgr_ := 0, neighbor_table_mgr_ := 0, nexthop_group_mgr_ := 0, policy_map_mgr_ := 0, system_mgr_ := 0 }

/-- Modelled from the spec: the body of `sdk::init_acl_mgr` is not among
the sources (only its call site in `inline/sdk.h` is); per the claim's
assumption it assigns a non-null manager pointer to `acl_mgr_`,
modelled as assigning the given value `v`. -/
def init_acl_mgr (v : Nat) (s : SdkState) : SdkState :=
  { s with acl_mgr_ := v }

/-- `sdk::get_acl_mgr` (inline/sdk.h): run `init_acl_mgr` when
`acl_mgr_` is null, then return `acl_mgr_`.  The Bool records
whether the initializer was invoked on this call. -/
def get_acl_mgr (v : Nat) (s : SdkState) : Nat × SdkState × Bool :=
  if s.acl_mgr_ = 0 then
    ((init_acl_mgr v s).acl_mgr_, init_acl_mgr v s, true)
  else (s.acl_mgr_, s, false)

/-- Modelled from the spec: the body of `sdk::init_agent_mgr` is not among
the sources (only its call site in `inline/sdk.h` is); per the claim's
assumption it assigns a non-null manager pointer to `agent_mgr_`,
modelled as assigning the given value `v`. -/
def init_agent_mgr (v : Nat) (s : SdkState) : SdkState :=
  { s with agent_mgr_ := v }

/-- `sdk::get_agent_mgr` (inline/sdk.h): run `init_agent_mgr` when
`agent_mgr_` is null, then return `agent_mgr_`.  The Bool records
whether the initializer was invoked on this call. -/
def get_agent_mgr (v : Nat) (s : SdkState) : Nat × SdkState × Bool :=
  if s.agent_mgr_ = 0 then
    ((init_agent_mgr v s).agent_mgr_, init_agent_mgr v s, true)
  else (s.agent_mgr_, s, false)

/-- Modelled from the spec: the body of `sdk::init_decap_group_mgr` is not among
the sources (only its call site in `inline/sdk.h` is); per the claim's
assumption it assigns a non-null manager pointer to `decap_group_mgr_`,
modelled as assigning the given value `v`. -/
def init_decap_group_mgr (v : Nat) (s : SdkState) : SdkState :=
  { s with decap_group_mgr_ := v }

/-- `sdk::get_decap_group_mgr` (inline/sdk.h): run `init_decap_group_mgr` when
`decap_group_mgr_` is null, then return `decap_group_mgr_`.  The Bool records
whether the initializer was invoked on this call. -/
def get_decap_group_mgr (v : Nat) (s : SdkState) : Nat × SdkState × Bool :=
  if s.decap_group_mgr_ = 0 then
    ((init_decap_group_mgr v s).decap_group_mgr_, init_decap_group_mgr v s, true)
  else (s.decap_group_mgr_, s, false)

/-- Modelled from the spec: the body of `sdk::init_directflow_mgr` is not among
the sources (only its call site in `inline/sdk.h` is); per the claim's
assumption it assigns a non-null manager pointer to `directflow_mgr_`,
modelled as assigning the given value `v`. -/
def init_directflow_mgr (v : Nat) (s : SdkState) : SdkState :=
  { s with directflow_mgr_ := v }

/-- `sdk::get_directflow_mgr` (inline/sdk.h): run `init_directflow_mgr` when
`directflow_mgr_` is null, then return `directflow_mgr_`.  The Bool records
whether the initializer was invoked on this call. -/
def get_directflow_mgr (v : Nat) (s : SdkState) : Nat × SdkState × Bool :=
  if s.directflow_mgr_ = 0 then
    ((init_directflow_mgr v s).directflow_mgr_, init_directflow_mgr v s, true)
  else (s.directflow_mgr_, s, false)

/-- Modelled from the spec: the body of `sdk::init_eth_intf_mgr` is not among
the sources (only its call site in `inline/sdk.h` is); per the claim's
assumption it assigns a non-null manager pointer to `eth_intf_mgr_`,
modelled as assigning the given value `v`. -/
def init_eth_intf_mgr (v : Nat) (s : SdkState) : SdkState :=
  { s with eth_intf_mgr_ := v }

/-- `sdk::get_eth_intf_mgr` (inline/sdk.h): run `init_eth_intf_mgr` when
`eth_intf_mgr_` is null, then return `eth_intf_mgr_`.  The Bool records
whether the initializer was invoked on this call. -/
def get_eth_intf_mgr (v : Nat) (s : SdkState) : Nat × SdkState × Bool :=
  if s.eth_intf_mgr_ = 0 then
    ((init_eth_intf_mgr v s).eth_intf_mgr_, init_eth_intf_mgr v s, true)
  else (s.eth_intf_mgr_, s, false)

/-- Modelled from the spec: the body of `sdk::init_eth_phy_intf_mgr` is not among
the sources (only its call site in `inline/sdk.h` is); per the claim's
assumption it assigns a non-null manager pointer to `eth_phy_intf_mgr_`,
modelled as assigning the given value `v`. -/
def init_eth_phy_intf_mgr (v : Nat) (s : SdkState) : SdkState :=
  { s with eth_phy_intf_mgr_ := v }

/-- `sdk::get_eth_phy_intf_mgr` (inline/sdk.h): run `init_eth_phy_intf_mgr` when
`eth_phy_intf_mgr_` is null, then return `eth_phy_intf_mgr_`.  The Bool records
whether the initializer was invoked on this call. -/
def get_eth_phy_intf_mgr (v : Nat) (s : SdkState) : Nat × SdkState × Bool :=
  if s.eth_phy_intf_mgr_ = 0 then
    ((init_eth_phy_intf_mgr v s).eth_phy_intf_mgr_, init_eth_phy_intf_mgr v s, true)
  else (s.eth_phy_intf_mgr_, s, false)

/-- Modelled from the spec: the body of `sdk::init_fib_mgr` is not among
the sources (only its call site in `inline/sdk.h` is); per the claim's
assumption it assigns a non-null manager pointer to `fib_mgr_`,
modelled as assigning the given value `v`. -/
def init_fib_mgr (v : Nat) (s : SdkState) : SdkState :=
  { s with fib_mgr_ := v }

/-- `sdk::get_fib_mgr` (inline/sdk.h): run `init_fib_mgr` when
`fib_mgr_` is null, then return `fib_mgr_`.  The Bool records
whether the initializer was invoked on this call. -/
def get_fib_mgr (v : Nat) (s : SdkState) : Nat × SdkState × Bool :=
  if s.fib_mgr_ = 0 then
    ((init_fib_mgr v s).fib_mgr_, init_fib_mgr v s, true)
  else (s.fib_mgr_, s, false)

/-- Modelled from the spec: the body of `sdk::init_intf_mgr` is not among
the sources (only its call site in `inline/sdk.h` is); per the claim's
assumption it assigns a non-null manager pointer to `intf_mgr_`,
modelled as assigning the given value `v`. -/
def init_intf_mgr (v : Nat) (s : SdkState) : SdkState :=
  { s with intf_mgr_ := v }

/-- `sdk::get_intf_mgr` (inline/sdk.h): run `init_intf_mgr` when
`intf_mgr_` is null, then return `intf_mgr_`.  The Bool records
whether the initializer was invoked on this call. -/
def get_intf_mgr (v : Nat) (s : SdkState) : Nat × SdkState × Bool :=
  if s.intf_mgr_ = 0 then
    ((init_intf_mgr v s).intf_mgr_, init_intf_mgr v s, true)
  else (s.intf_mgr_, s, false)

/-- Modelled from the spec: the body of `sdk::init_ip_route_mgr` is not among
the sources (only its call site in `inline/sdk.h` is); per the claim's
assumption it assigns a non-null manager pointer to `ip_route_mgr_`,
modelled as assigning the given value `v`. -/
def init_ip_route_mgr (v : Nat) (s : SdkState) : SdkState :=
  { s with ip_route_mgr_ := v }

/-- `sdk::get_ip_route_mgr` (inline/sdk.h): run `init_ip_route_mgr` when
`ip_route_mgr_` is null, then return `ip_route_mgr_`.  The Bool records
whether the initializer was invoked on this call. -/
def get_ip_route_mgr (v : Nat) (s : SdkState) : Nat × SdkState × Bool :=
  if s.ip_route_mgr_ = 0 then
    ((init_ip_route_mgr v s).ip_route_mgr_, init_ip_route_mgr v s, true)
  else (s.ip_route_mgr_, s, false)

/-- Modelled from the spec: the body of `sdk::init_mac_table_mgr` is not among
the sources (only its call site in `inline/sdk.h` is); per the claim's
assumption it assigns a non-null manager pointer to `mac_table_mgr_`,
modelled as assigning the given value `v`. -/
def init_mac_table_mgr (v : Nat) (s : SdkState) : SdkState :=
  { s with mac_table_mgr_ := v }

/-- `sdk::get_mac_table_mgr` (inline/sdk.h): run `init_mac_table_mgr` when
`mac_table_mgr_` is null, then return `mac_table_mgr_`.  The Bool records
whether the initializer was invoked on this call. -/
def get_mac_table_mgr (v : Nat) (s : SdkState) : Nat × SdkState × Bool :=
  if s.mac_table_mgr_ = 0 then
    ((init_mac_table_mgr v s).mac_table_mgr_, init_mac_table_mgr v s, true)
  else (s.mac_table_mgr_, s, false)

/-- Modelled from the spec: the body of `sdk::init_mlag_mgr` is not among
the sources (only its call site in `inline/sdk.h` is); per the claim's
assumption it assigns a non-null manager pointer to `mlag_mgr_`,
modelled as assigning the given value `v`. -/
def init_mlag_mgr (v : Nat) (s : SdkState) : SdkState :=
  { s with mlag_mgr_ := v }

/-- `sdk::get_mlag_mgr` (inline/sdk.h): run `init_mlag_mgr` when
`mlag_mgr_` is null, then return `mlag_mgr_`.  The Bool records
whether the initializer was invoked on this call. -/
def get_mlag_mgr (v : Nat) (s : SdkState) : Nat × SdkState × Bool :=
  if s.mlag_mgr_ = 0 then
    ((init_mlag_mgr v s).mlag_mgr_, init_mlag_mgr v s, true)
  else (s.mlag_mgr_, s, false)

/-- Modelled from the spec: the body of `sdk::init_mount_mgr` is not among
the sources (only its call site in `inline/sdk.h` is); per the claim's
assumption it assigns a non-null manager pointer to `mount_mgr_`,
modelled as assigning the given value `v`. -/
def init_mount_mgr (v : Nat) (s : SdkState) : SdkState :=
  { s with mount_mgr_ := v }

/-- `sdk::get_mount_mgr` (inline/sdk.h): run `init_mount_mgr` when
`mount_mgr_` is null, then return `mount_mgr_`.  The Bool records
whether the initializer was invoked on this call. -/
def get_mount_mgr (v : Nat) (s : SdkState) : Nat × SdkState × Bool :=
  if s.mount_mgr_ = 0 then
    ((init_mount_mgr v s).mount_mgr_, init_mount_mgr v s, true)
  else (s.mount_mgr_, s, false)

/-- Modelled from the spec: the body of `sdk::init_mpls_route_mgr` is not among
the sources (only its call site in `inline/sdk.h` is); per the claim's
assumption it assigns a non-null manager pointer to `mpls_route_mgr_`,
modelled as assigning the given value `v`. -/
def init_mpls_route_mgr (v : Nat) (s : SdkState) : SdkState :=
  { s with mpls_route_mgr_ := v }

/-- `sdk::get_mpls_route_mgr` (inline/sdk.h): run `init_mpls_route_mgr` when
`mpls_route_mgr_` is null, then return `mpls_route_mgr_`.  The Bool records
whether the initializer was invoked on this call. -/
def get_mpls_route_mgr (v : Nat) (s : SdkState) : Nat × SdkState × Bool :=
  if s.mpls_route_mgr_ = 0 then
    ((init_mpls_route_mgr v s).mpls_route_mgr_, init_mpls_route_mgr v s, true)
  else (s.mpls_route_mgr_, s, false)

/-- Modelled from the spec: the body of `sdk::init_neighbor_table_mgr` is not among
the sources (only its call site in `inline/sdk.h` is); per the claim's
assumption it assigns a non-null manager pointer to `neighbor_table_mgr_`,
modelled as assigning the given value `v`. -/
def init_neighbor_table_mgr (v : Nat) (s : SdkState) : SdkState :=
  { s with neighbor_table_mgr_ := v }

/-- `sdk::get_neighbor_table_mgr` (inline/sdk.h): run `init_neighbor_table_mgr` when
`neighbor_table_mgr_` is null, then return `neighbor_table_mgr_`.  The Bool records
whether the initializer was invoked on this call. -/
def get_neighbor_table_mgr (v : Nat) (s : SdkState) : Nat × SdkState × Bool :=
  if s.neighbor_table_mgr_ = 0 then
    ((init_neighbor_table_mgr v s).neighbor_table_mgr_, init_neighbor_table_mgr v s, true)
  else (s.neighbor_table_mgr_, s, false)

/-- Modelled from the spec: the body of `sdk::init_nexthop_group_mgr` is not among
the sources (only its call site in `inline/sdk.h` is); per the claim's
assumption it assigns a non-null manager pointer to `nexthop_group_mgr_`,
modelled as assigning the given value `v`. -/
def init_nexthop_group_mgr (v : Nat) (s : SdkState) : SdkState :=
  { s with nexthop_group_mgr_ := v }

/-- `sdk::get_nexthop_group_mgr` (inline/sdk.h): run `init_nexthop_group_mgr` when
`nexthop_group_mgr_` is null, then return `nexthop_group_mgr_`.  The Bool records
whether the initializer was invoked on this call. -/
def get_nexthop_group_mgr (v : Nat) (s : SdkState) : Nat × SdkState × Bool :=
  if s.nexthop_group_mgr_ = 0 then
    ((init_nexthop_group_mgr v s).nexthop_group_mgr_, init_nexthop_group_mgr v s, true)
  else (s.nexthop_group_mgr_, s, false)

/-- Modelled from the spec: the body of `sdk::init_policy_map_mgr` is not among
the sources (only its call site in `inline/sdk.h` is); per the claim's
assumption it assigns a non-null manager pointer to `policy_map_mgr_`,
modelled as assigning the given value `v`. -/
def init_policy_map_mgr (v : Nat) (s : SdkState) : SdkState :=
  { s with policy_map_mgr_ := v }

/-- `sdk::get_policy_map_mgr` (inline/sdk.h): run `init_policy_map_mgr` when
`policy_map_mgr_` is null, then return `policy_map_mgr_`.  The Bool records
whether the initializer was invoked on this call. -/
def get_policy_map_mgr (v : Nat) (s : SdkState) : Nat × SdkState × Bool :=
  if s.policy_map_mgr_ = 0 then
    ((init_policy_map_mgr v s).policy_map_mgr_, init_policy_map_mgr v s, true)
  else (s.policy_map_mgr_, s, false)

/-- Modelled from the spec: the body of `sdk::init_system_mgr` is not among
the sources (only its call site in `inline/sdk.h` is); per the claim's
assumption it assigns a non-null manager pointer to `system_mgr_`,
modelled as assigning the given value `v`. -/
def init_system_mgr (v : Nat) (s : SdkState) : SdkState :=
  { s with system_mgr_ := v }

/-- `sdk::get_system_mgr` (inline/sdk.h): run `init_system_mgr` when
`system_mgr_` is null, then return `system_mgr_`.  The Bool records
whether the initializer was invoked on this call. -/
def get_system_mgr (v : Nat) (s : SdkState) : Nat × SdkState × Bool :=
  if s.system_mgr_ = 0 then
    ((init_system_mgr v s).system_mgr_, init_system_mgr v s, true)
  else (s.system_mgr_, s, false)

/-- A reachable example state: one live handler `1` bound to state machine
`1` with an empty descriptor collection (as after constructing one
handler). -/
def exReg : CoreState :=
  { fileHandlerToFileHandlerSm := [(1, 1)],
    fileHandlerSmToFileHandler := [(1, 1)],
    smDescriptors := [(1, [])], nextSmId := 2 }

/-- A reachable example state: handler `1` on state machine `1` with read
interest registered on descriptor `5`. -/
def exRec : CoreState :=
  { fileHandlerToFileHandlerSm := [(1, 1)],
    fileHandlerSmToFileHandler := [(1, 1)],
    smDescriptors := [(1, [(5, FileDescriptor.mk 5 true false false)])],
    nextSmId := 2 }

theorem alookup_aerase_self {α β : Type} [DecidableEq α]
    (m : List (α × β)) (k : α) : alookup (aerase m k) k = none := by
  induction m with
  | nil => simp [aerase, alookup]
  | cons p rest ih =>
      obtain ⟨k', v⟩ := p
      by_cases h : k' = k
      · simp [aerase, h, ih]
      · simp [aerase, alookup, h, ih]

theorem alookup_aerase_ne {α β : Type} [DecidableEq α]
    (m : List (α × β)) {k k' : α} (h : k' ≠ k) :
    alookup (aerase m k) k' = alookup m k' := by
  have h2 : k ≠ k' := Ne.symm h
  induction m with
  | nil => simp [aerase]
  | cons p rest ih =>
      obtain ⟨k₀, v⟩ := p
      by_cases h0 : k₀ = k
      · subst h0
        simp [aerase, alookup, h2, ih]
      · by_cases h1 : k₀ = k'
        · subst h1
          simp [aerase, alookup, h0]
        · simp [aerase, alookup, h0, h1, ih]

theorem alookup_ainsert_self {α β : Type} [DecidableEq α]
    (m : List (α × β)) (k : α) (v : β) :
    alookup (ainsert m k v) k = some v := by
  simp [ainsert, alookup]

theorem alookup_ainsert_ne {α β : Type} [DecidableEq α]
    (m : List (α × β)) {k k' : α} (v : β) (h : k' ≠ k) :
    alookup (ainsert m k v) k' = alookup m k' := by
  have h2 : k ≠ k' := Ne.symm h
  simp [ainsert, alookup, h2, alookup_aerase_ne m h]

theorem aerase_idem {α β : Type} [DecidableEq α]
    (m : List (α × β)) (k : α) : aerase (aerase m k) k = aerase m k := by
  induction m with
  | nil => simp [aerase]
  | cons p rest ih =>
      obtain ⟨k', v⟩ := p
      by_cases h : k' = k
      · simp [aerase, h, ih]
      · simp [aerase, h, ih]

theorem aerase_ainsert_self {α β : Type} [DecidableEq α]
    (m : List (α × β)) (k : α) (v : β) :
    aerase (ainsert m k v) k = aerase m k := by
  simp [ainsert, aerase, aerase_idem]

theorem ainsert_ainsert_self {α β : Type} [DecidableEq α]
    (m : List (α × β)) (k : α) (v w : β) :
    ainsert (ainsert m k v) k w = ainsert m k w := by
  simp [ainsert, aerase, aerase_idem]

theorem aerase_eq_of_alookup_none {α β : Type} [DecidableEq α]
    {m : List (α × β)} {k : α} (h : alookup m k = none) : aerase m k = m := by
  induction m with
  | nil => simp [aerase]
  | cons p rest ih =>
      obtain ⟨k', v⟩ := p
      by_cases h0 : k' = k
      · simp [alookup, h0] at h
      · simp [alookup, h0] at h
        simp [aerase, h0, ih h]

theorem countKey_aerase_self {α β : Type} [DecidableEq α]
    (m : List (α × β)) (k : α) : countKey (aerase m k) k = 0 := by
  induction m with
  | nil => simp [aerase, countKey]
  | cons p rest ih =>
      obtain ⟨k', v⟩ := p
      by_cases h : k' = k
      · simp [aerase, h, ih]
      · simp [aerase, countKey, h, ih]

theorem countKey_ainsert_self {α β : Type} [DecidableEq α]
    (m : List (α × β)) (k : α) (v : β) :
    countKey (ainsert m k v) k = 1 := by
  simp [ainsert, countKey, countKey_aerase_self]

theorem getFlag_setFlag_self (k : InterestKind) (b : Bool)
    (r : FileDescriptor) : getFlag k (setFlag k b r) = b := by
  cases k <;> rfl

theorem setFlag_descriptor (k : InterestKind) (b : Bool)
    (r : FileDescriptor) : (setFlag k b r).descriptor = r.descriptor := by
  cases k <;> rfl

theorem setFlag_of_getFlag_eq {k : InterestKind} {b : Bool}
    {r : FileDescriptor} (h : getFlag k r = b) : setFlag k b r = r := by
  cases r
  cases k <;> simp_all [getFlag, setFlag, FileDescriptor.notifyOnReadableIs,
    FileDescriptor.notifyOnWritableIs, FileDescriptor.notifyOnExceptionIs]

theorem descriptorIs_of_descriptor_eq {r : FileDescriptor} {fd : Int}
    (h : r.descriptor = fd) : r.descriptorIs fd = r := by
  cases r
  simp_all [FileDescriptor.descriptorIs]

theorem descriptorIs_descriptor (r : FileDescriptor) (fd : Int) :
    (r.descriptorIs fd).descriptor = fd := rfl

theorem getFlag_descriptorIs (k : InterestKind) (r : FileDescriptor)
    (fd : Int) : getFlag k (r.descriptorIs fd) = getFlag k r := by
  cases k <;> rfl

theorem getFlag_true_of_allFlagsFalse_eq_false {r : FileDescriptor}
    (h : allFlagsFalse r = false) :
    r.notifyOnReadable = true ∨ r.notifyOnWritable = true ∨
      r.notifyOnException = true := by
  obtain ⟨d, a, b, c⟩ := r
  cases a <;> cases b <;> cases c <;> simp_all [allFlagsFalse]

theorem flags_true_of_getFlag {k : InterestKind} {r : FileDescriptor}
    (h : getFlag k r = true) :
    r.notifyOnReadable = true ∨ r.notifyOnWritable = true ∨
      r.notifyOnException = true := by
  obtain ⟨d, a, b, c⟩ := r
  cases k <;> simp_all [getFlag]

/-- Characterization of a completed interest-setter call on a registered
handler: the only change is to the owning state machine's descriptor
collection, which becomes `interestEffect` of the old collection. -/
theorem interest_is_eq (k : InterestKind) (h : Nat) (fd : Int) (b : Bool)
    (s : CoreState) (smv : Nat)
    (hreg : alookup s.fileHandlerToFileHandlerSm h = some smv)
    (hnz : smv ≠ 0) :
    interest_is k h fd b s =
      some { s with smDescriptors := ainsert s.smDescriptors smv
                      (interestEffect k fd b (descMap s smv)) } := by
  unfold interest_is get_file_descriptor_sm interestEffect
  rw [hreg]
  simp only []
  rw [if_neg hnz]
  simp only []
  generalize ((alookup (descMap s smv) fd).getD
      FileDescriptor.fresh).descriptorIs fd = r1
  have hd1 : descMap { s with smDescriptors := ainsert s.smDescriptors smv
                                (ainsert (descMap s smv) fd r1) } smv =
      ainsert (descMap s smv) fd r1 := by
    simp [descMap, alookup_ainsert_self]
  rw [hd1]
  cases b with
  | true =>
      simp [ainsert_ainsert_self]
  | false =>
      simp only [Bool.false_eq_true, if_false]
      unfold maybeCleanupAfterFileDescriptor
      have hd2 : descMap { s with smDescriptors := ainsert
                                    (ainsert s.smDescriptors smv
                                      (ainsert (descMap s smv) fd r1)) smv
                                    (ainsert (ainsert (descMap s smv) fd r1) fd
                                      (setFlag k false r1)) } smv =
          ainsert (descMap s smv) fd (setFlag k false r1) := by
        simp [descMap, alookup_ainsert_self, ainsert_ainsert_self]
      rw [hd2]
      simp only [alookup_ainsert_self]
      by_cases hall : allFlagsFalse (setFlag k false r1) = true
      · have hall' : (!(setFlag k false r1).notifyOnReadable &&
            !(setFlag k false r1).notifyOnWritable &&
            !(setFlag k false r1).notifyOnException) = true := hall
        simp [hall', hall, ainsert_ainsert_self, aerase_ainsert_self]
      · have hall2 : allFlagsFalse (setFlag k false r1) = false := by
          revert hall
          simp
        have hall' : (!(setFlag k false r1).notifyOnReadable &&
            !(setFlag k false r1).notifyOnWritable &&
            !(setFlag k false r1).notifyOnException) = false := hall2
        simp [hall', hall2, ainsert_ainsert_self]

theorem allFlagsFalse_fresh_set (k : InterestKind) (fd : Int) :
    allFlagsFalse (setFlag k false
      (FileDescriptor.fresh.descriptorIs fd)) = true := by
  cases k <;> rfl

theorem alookup_interestEffect_ne (k : InterestKind) {fd fd' : Int}
    (b : Bool) (F : List (Int × FileDescriptor)) (h : fd' ≠ fd) :
    alookup (interestEffect k fd b F) fd' = alookup F fd' := by
  unfold interestEffect
  simp only []
  split
  · exact alookup_ainsert_ne F _ h
  · split
    · exact alookup_aerase_ne F h
    · exact alookup_ainsert_ne F _ h

theorem alookup_interestEffect_true (k : InterestKind) (fd : Int)
    (F : List (Int × FileDescriptor)) :
    alookup (interestEffect k fd true F) fd =
      some (setFlag k true (((alookup F fd).getD
        FileDescriptor.fresh).descriptorIs fd)) := by
  unfold interestEffect
  simp [alookup_ainsert_self]

theorem alookup_interestEffect_false (k : InterestKind) (fd : Int)
    (F : List (Int × FileDescriptor)) :
    alookup (interestEffect k fd false F) fd =
      (if allFlagsFalse (setFlag k false (((alookup F fd).getD
          FileDescriptor.fresh).descriptorIs fd)) then none
       else some (setFlag k false (((alookup F fd).getD
          FileDescriptor.fresh).descriptorIs fd))) := by
  unfold interestEffect
  simp only [Bool.false_eq_true, if_false]
  split
  · simp [alookup_aerase_self]
  · simp [alookup_ainsert_self]

/-- Applying the same interest-setter effect twice gives the same
descriptor collection as applying it once. -/
theorem interestEffect_idem (k : InterestKind) (fd : Int) (b : Bool)
    (F : List (Int × FileDescriptor)) :
    interestEffect k fd b (interestEffect k fd b F) =
      interestEffect k fd b F := by
  unfold interestEffect
  simp only []
  generalize hR : ((alookup F fd).getD
      FileDescriptor.fresh).descriptorIs fd = R
  have hRd : R.descriptor = fd := by
    rw [← hR]
    rfl
  cases b with
  | true =>
      simp only [if_pos, if_true]
      rw [alookup_ainsert_self]
      simp only [Option.getD_some]
      have h1 : (setFlag k true R).descriptorIs fd = setFlag k true R := by
        apply descriptorIs_of_descriptor_eq
        rw [setFlag_descriptor]
        exact hRd
      rw [h1]
      rw [setFlag_of_getFlag_eq (getFlag_setFlag_self k true R)]
      exact ainsert_ainsert_self F fd _ _
  | false =>
      simp only [Bool.false_eq_true, if_false]
      by_cases hall : allFlagsFalse (setFlag k false R) = true
      · rw [if_pos hall]
        rw [alookup_aerase_self]
        simp only [Option.getD_none]
        rw [if_pos (allFlagsFalse_fresh_set k fd)]
        exact aerase_idem F fd
      · rw [if_neg hall]
        rw [alookup_ainsert_self]
        simp only [Option.getD_some]
        have h1 : (setFlag k false R).descriptorIs fd = setFlag k false R := by
          apply descriptorIs_of_descriptor_eq
          rw [setFlag_descriptor]
          exact hRd
        rw [h1]
        rw [setFlag_of_getFlag_eq (getFlag_setFlag_self k false R)]
        rw [if_neg hall]
        exact ainsert_ainsert_self F fd _ _

/-- A completed interest-setter call always went through a registered
handler with a non-null state machine, and changed only that machine's
descriptor collection. -/
theorem interest_is_some_elim {k : InterestKind} {h : Nat} {fd : Int}
    {b : Bool} {s s' : CoreState}
    (hs : interest_is k h fd b s = some s') :
    ∃ smv, alookup s.fileHandlerToFileHandlerSm h = some smv ∧ smv ≠ 0 ∧
      s' = { s with smDescriptors := ainsert s.smDescriptors smv
                      (interestEffect k fd b (descMap s smv)) } := by
  cases hh : alookup s.fileHandlerToFileHandlerSm h with
  | none =>
      simp [interest_is, get_file_descriptor_sm, hh] at hs
  | some smv =>
      by_cases hz : smv = 0
      · simp [interest_is, get_file_descriptor_sm, hh, hz] at hs
      · rw [interest_is_eq k h fd b s smv hh hz] at hs
        injection hs with h2
        exact ⟨smv, rfl, hz, h2.symm⟩

theorem countKey_aerase_ne {α β : Type} [DecidableEq α]
    (m : List (α × β)) {k k' : α} (h : k' ≠ k) :
    countKey (aerase m k) k' = countKey m k' := by
  have h2 : k ≠ k' := Ne.symm h
  induction m with
  | nil => simp [aerase]
  | cons p rest ih =>
      obtain ⟨k₀, v⟩ := p
      by_cases h0 : k₀ = k
      · subst h0
        simp [aerase, countKey, h2, ih]
      · simp [aerase, countKey, h0, ih]

theorem countKey_ainsert_ne {α β : Type} [DecidableEq α]
    (m : List (α × β)) {k k' : α} (v : β) (h : k' ≠ k) :
    countKey (ainsert m k v) k' = countKey m k' := by
  have h2 : k ≠ k' := Ne.symm h
  simp [ainsert, countKey, h2, countKey_aerase_ne m h]

theorem countKey_pos_of_alookup_some {α β : Type} [DecidableEq α]
    {m : List (α × β)} {k : α} {v : β} (h : alookup m k = some v) :
    1 ≤ countKey m k := by
  induction m with
  | nil => simp [alookup] at h
  | cons p rest ih =>
      obtain ⟨k₀, w⟩ := p
      by_cases h0 : k₀ = k
      · simp [countKey, h0]
      · simp [alookup, h0] at h
        simp [countKey, h0, ih h]

theorem alookup_none_of_countKey_zero {α β : Type} [DecidableEq α]
    {m : List (α × β)} {k : α} (h : countKey m k = 0) :
    alookup m k = none := by
  induction m with
  | nil => simp [alookup]
  | cons p rest ih =>
      obtain ⟨k₀, w⟩ := p
      by_cases h0 : k₀ = k
      · simp [countKey, h0] at h
      · simp [countKey, h0] at h
        simp [alookup, h0, ih h]

theorem registryInv_initState : registryInv initState := by
  refine ⟨?_, ?_, ?_, ?_⟩
  · intro h smv
    simp [initState, alookup]
  · intro smv h hx
    simp [initState, alookup] at hx
  · intro h
    simp [initState, countKey]
  · simp [initState]

theorem descInv_initState : descInv initState := by
  intro smv fds hx
  simp [initState, alookup] at hx

theorem ctor_h2s (h : Nat) (s : CoreState) :
    (file_handler_ctor h s).fileHandlerToFileHandlerSm =
      ainsert s.fileHandlerToFileHandlerSm h s.nextSmId := rfl

theorem ctor_s2h (h : Nat) (s : CoreState) :
    (file_handler_ctor h s).fileHandlerSmToFileHandler =
      ainsert s.fileHandlerSmToFileHandler s.nextSmId h := rfl

theorem ctor_smd (h : Nat) (s : CoreState) :
    (file_handler_ctor h s).smDescriptors =
      ainsert s.smDescriptors s.nextSmId [] := rfl

theorem ctor_next (h : Nat) (s : CoreState) :
    (file_handler_ctor h s).nextSmId = s.nextSmId + 1 := rfl

theorem dtor_h2s (h : Nat) (s : CoreState) :
    (file_handler_dtor h s).fileHandlerToFileHandlerSm =
      aerase s.fileHandlerToFileHandlerSm h := rfl

theorem dtor_s2h (h : Nat) (s : CoreState) :
    (file_handler_dtor h s).fileHandlerSmToFileHandler =
      aerase s.fileHandlerSmToFileHandler
        ((alookup s.fileHandlerToFileHandlerSm h).getD 0) := rfl

theorem dtor_smd (h : Nat) (s : CoreState) :
    (file_handler_dtor h s).smDescriptors =
      aerase s.smDescriptors
        ((alookup s.fileHandlerToFileHandlerSm h).getD 0) := rfl

theorem dtor_next (h : Nat) (s : CoreState) :
    (file_handler_dtor h s).nextSmId = s.nextSmId := rfl

theorem registryInv_ctor {s : CoreState} {h : Nat} (hinv : registryInv s)
    (hz : h ≠ 0) (hnew : alookup s.fileHandlerToFileHandlerSm h = none) :
    registryInv (file_handler_ctor h s) := by
  obtain ⟨hiff, hbound, hcnt, hpos⟩ := hinv
  have hn0 : s.nextSmId ≠ 0 := Nat.pos_iff_ne_zero.mp hpos
  refine ⟨?_, ?_, ?_, ?_⟩
  · intro h' smv'
    rw [ctor_h2s, ctor_s2h]
    by_cases hh : h' = h
    · subst hh
      rw [alookup_ainsert_self]
      by_cases hsm : smv' = s.nextSmId
      · subst hsm
        rw [alookup_ainsert_self]
        simp
      · rw [alookup_ainsert_ne _ _ hsm]
        constructor
        · intro hx
          injection hx with hx
          exact absurd hx.symm hsm
        · intro hx
          have h2 := (hiff h' smv').mpr hx
          rw [hnew] at h2
          exact Option.noConfusion h2
    · rw [alookup_ainsert_ne _ _ hh]
      by_cases hsm : smv' = s.nextSmId
      · subst hsm
        rw [alookup_ainsert_self]
        constructor
        · intro hx
          have h2 := (hiff h' s.nextSmId).mp hx
          have h3 := (hbound s.nextSmId h' h2).2
          exact absurd h3 (lt_irrefl _)
        · intro hx
          injection hx with hx
          exact absurd hx.symm hh
      · rw [alookup_ainsert_ne _ _ hsm]
        exact hiff h' smv'
  · intro smv' h' hx
    rw [ctor_s2h] at hx
    rw [ctor_next]
    by_cases hsm : smv' = s.nextSmId
    · subst hsm
      exact ⟨hn0, Nat.lt_succ_self _⟩
    · rw [alookup_ainsert_ne _ _ hsm] at hx
      obtain ⟨hx1, hx2⟩ := hbound smv' h' hx
      exact ⟨hx1, Nat.lt_succ_of_lt hx2⟩
  · intro h'
    rw [ctor_h2s]
    by_cases hh : h' = h
    · subst hh
      rw [countKey_ainsert_self]
    · rw [countKey_ainsert_ne _ _ hh]
      exact hcnt h'
  · rw [ctor_next]
    exact Nat.succ_pos _

theorem registryInv_dtor {s : CoreState} {h : Nat} (hinv : registryInv s)
    (hlive : (alookup s.fileHandlerToFileHandlerSm h).isSome = true) :
    registryInv (file_handler_dtor h s) := by
  obtain ⟨hiff, hbound, hcnt, hpos⟩ := hinv
  obtain ⟨smv₀, hsm₀⟩ := Option.isSome_iff_exists.mp hlive
  have hgetd : (alookup s.fileHandlerToFileHandlerSm h).getD 0 = smv₀ := by
    rw [hsm₀]
    rfl
  have hrev : alookup s.fileHandlerSmToFileHandler smv₀ = some h :=
    (hiff h smv₀).mp hsm₀
  refine ⟨?_, ?_, ?_, ?_⟩
  · intro h' smv'
    rw [dtor_h2s, dtor_s2h, hgetd]
    by_cases hh : h' = h
    · subst hh
      rw [alookup_aerase_self]
      constructor
      · intro hx
        exact Option.noConfusion hx
      · intro hx
        by_cases hsm : smv' = smv₀
        · subst hsm
          rw [alookup_aerase_self] at hx
          exact Option.noConfusion hx
        · rw [alookup_aerase_ne _ hsm] at hx
          have h2 := (hiff h' smv').mpr hx
          rw [hsm₀] at h2
          injection h2 with h2
          exact absurd h2.symm hsm
    · rw [alookup_aerase_ne _ hh]
      by_cases hsm : smv' = smv₀
      · subst hsm
        rw [alookup_aerase_self]
        constructor
        · intro hx
          have h2 := (hiff h' smv').mp hx
          rw [hrev] at h2
          injection h2 with h2
          exact absurd h2.symm hh
        · intro hx
          exact Option.noConfusion hx
      · rw [alookup_aerase_ne _ hsm]
        exact hiff h' smv'
  · intro smv' h' hx
    rw [dtor_s2h, hgetd] at hx
    rw [dtor_next]
    by_cases hsm : smv' = smv₀
    · subst hsm
      rw [alookup_aerase_self] at hx
      exact Option.noConfusion hx
    · rw [alookup_aerase_ne _ hsm] at hx
      exact hbound smv' h' hx
  · intro h'
    rw [dtor_h2s]
    by_cases hh : h' = h
    · subst hh
      rw [countKey_aerase_self]
      exact Nat.zero_le _
    · rw [countKey_aerase_ne _ hh]
      exact hcnt h'
  · rw [dtor_next]
    exact hpos

theorem registryInv_interest {k : InterestKind} {h : Nat} {fd : Int}
    {b : Bool} {s s' : CoreState} (hinv : registryInv s)
    (hs : interest_is k h fd b s = some s') : registryInv s' := by
  obtain ⟨smv, hreg, hz, rfl⟩ := interest_is_some_elim hs
  exact hinv

theorem descInv_ctor {s : CoreState} (h : Nat) (hinv : descInv s) :
    descInv (file_handler_ctor h s) := by
  intro smv fds hfds fd r hr
  rw [ctor_smd] at hfds
  by_cases hsm : smv = s.nextSmId
  · subst hsm
    rw [alookup_ainsert_self] at hfds
    injection hfds with hfds
    subst hfds
    simp [alookup] at hr
  · rw [alookup_ainsert_ne _ _ hsm] at hfds
    exact hinv smv fds hfds fd r hr

theorem descInv_dtor {s : CoreState} (h : Nat) (hinv : descInv s) :
    descInv (file_handler_dtor h s) := by
  intro smv fds hfds fd r hr
  rw [dtor_smd] at hfds
  by_cases hsm : smv = (alookup s.fileHandlerToFileHandlerSm h).getD 0
  · subst hsm
    rw [alookup_aerase_self] at hfds
    exact Option.noConfusion hfds
  · rw [alookup_aerase_ne _ hsm] at hfds
    exact hinv smv fds hfds fd r hr

theorem descInv_interest {k : InterestKind} {h : Nat} {fd : Int} {b : Bool}
    {s s' : CoreState} (hinv : descInv s)
    (hs : interest_is k h fd b s = some s') : descInv s' := by
  obtain ⟨smv, hreg, hz, rfl⟩ := interest_is_some_elim hs
  intro smv' fds' hfds' fd' r' hr'
  simp only [] at hfds'
  by_cases hsm : smv' = smv
  · subst hsm
    rw [alookup_ainsert_self] at hfds'
    injection hfds' with hfds'
    subst hfds'
    by_cases hfd : fd' = fd
    · subst hfd
      cases b with
      | true =>
          rw [alookup_interestEffect_true] at hr'
          injection hr' with hr'
          subst hr'
          exact flags_true_of_getFlag (getFlag_setFlag_self k true _)
      | false =>
          rw [alookup_interestEffect_false] at hr'
          by_cases hall : allFlagsFalse (setFlag k false
              (((alookup (descMap s smv') fd').getD
                FileDescriptor.fresh).descriptorIs fd')) = true
          · rw [if_pos hall] at hr'
            exact Option.noConfusion hr'
          · rw [if_neg hall] at hr'
            injection hr' with hr'
            subst hr'
            exact getFlag_true_of_allFlagsFalse_eq_false
              (Bool.eq_false_iff.mpr hall)
    · rw [alookup_interestEffect_ne k b _ hfd] at hr'
      unfold descMap at hr'
      cases hD : alookup s.smDescriptors smv' with
      | none =>
          rw [hD] at hr'
          simp [alookup] at hr'
      | some fds₀ =>
          rw [hD] at hr'
          exact hinv smv' fds₀ hD fd' r' hr'
  · rw [alookup_ainsert_ne _ _ hsm] at hfds'
    exact hinv smv' fds' hfds' fd' r' hr'

theorem runOps_descInv : ∀ (ops : List Op) (s s' : CoreState),
    descInv s → runOps s ops = some s' → descInv s' := by
  intro ops
  induction ops with
  | nil =>
      intro s s' hinv hrun
      rw [runOps] at hrun
      injection hrun with h2
      subst h2
      exact hinv
  | cons op rest ih =>
      intro s s' hinv hrun
      rw [runOps] at hrun
      cases op with
      | opCtor h =>
          simp only [runOp] at hrun
          exact ih _ _ (descInv_ctor h hinv) hrun
      | opDtor h =>
          simp only [runOp] at hrun
          exact ih _ _ (descInv_dtor h hinv) hrun
      | opInterest k h fd b =>
          simp only [runOp] at hrun
          cases hi : interest_is k h fd b s with
          | none =>
              rw [hi] at hrun
              simp at hrun
          | some s₁ =>
              rw [hi] at hrun
              simp only [] at hrun
              exact ih _ _ (descInv_interest hinv hi) hrun

theorem validOps_registryInv : ∀ (ops : List Op) (s : CoreState),
    registryInv s → validOps s ops = true →
    ∃ s', runOps s ops = some s' ∧ registryInv s' := by
  intro ops
  induction ops with
  | nil =>
      intro s hinv _
      exact ⟨s, rfl, hinv⟩
  | cons op rest ih =>
      intro s hinv hv
      cases op with
      | opCtor h =>
          simp only [validOps, Bool.and_eq_true] at hv
          obtain ⟨⟨hz, hnone⟩, hrest⟩ := hv
          have hz' : h ≠ 0 := of_decide_eq_true hz
          have hnone' : alookup s.fileHandlerToFileHandlerSm h = none :=
            Option.isNone_iff_eq_none.mp hnone
          obtain ⟨s', hrun, hinv'⟩ :=
            ih _ (registryInv_ctor hinv hz' hnone') hrest
          refine ⟨s', ?_, hinv'⟩
          rw [runOps]
          simp only [runOp]
          exact hrun
      | opDtor h =>
          simp only [validOps, Bool.and_eq_true] at hv
          obtain ⟨hlive, hrest⟩ := hv
          obtain ⟨s', hrun, hinv'⟩ :=
            ih _ (registryInv_dtor hinv hlive) hrest
          refine ⟨s', ?_, hinv'⟩
          rw [runOps]
          simp only [runOp]
          exact hrun
      | opInterest k h fd b =>
          simp only [validOps] at hv
          cases hi : interest_is k h fd b s with
          | none =>
              rw [hi] at hv
              simp at hv
          | some s₁ =>
              rw [hi] at hv
              simp only [] at hv
              obtain ⟨s', hrun, hinv'⟩ :=
                ih _ (registryInv_interest hinv hi) hv
              refine ⟨s', ?_, hinv'⟩
              rw [runOps]
              simp only [runOp]
              rw [hi]
              exact hrun

theorem descMap_after (s : CoreState) (smv : Nat)
    (E : List (Int × FileDescriptor)) :
    descMap { s with smDescriptors := ainsert s.smDescriptors smv E } smv =
      E := by
  simp [descMap, alookup_ainsert_self]

theorem interestEffect_true_eq (k : InterestKind) (fd : Int)
    (F : List (Int × FileDescriptor)) :
    interestEffect k fd true F =
      ainsert F fd (setFlag k true (((alookup F fd).getD
        FileDescriptor.fresh).descriptorIs fd)) := by
  unfold interestEffect
  simp

theorem getFlag_setFlag_ne {k k' : InterestKind} (b : Bool)
    (r : FileDescriptor) (h : k' ≠ k) :
    getFlag k' (setFlag k b r) = getFlag k' r := by
  cases k <;> cases k' <;>
    simp_all [getFlag, setFlag, FileDescriptor.notifyOnReadableIs,
      FileDescriptor.notifyOnWritableIs, FileDescriptor.notifyOnExceptionIs]

theorem allFlagsFalse_eq_false_of_flag {k : InterestKind}
    {r : FileDescriptor} (h : getFlag k r = true) :
    allFlagsFalse r = false := by
  cases k <;> simp_all [getFlag, allFlagsFalse]

theorem interest_false_removes (k : InterestKind) {s : CoreState}
    {h smv : Nat} {fd : Int} {r : FileDescriptor}
    (hreg : alookup s.fileHandlerToFileHandlerSm h = some smv)
    (hnz : smv ≠ 0) (hr : alookup (descMap s smv) fd = some r)
    (hall : allFlagsFalse (setFlag k false (r.descriptorIs fd)) = true) :
    ∃ s', interest_is k h fd false s = some s' ∧
      alookup (descMap s' smv) fd = none := by
  refine ⟨_, interest_is_eq k h fd false s smv hreg hnz, ?_⟩
  rw [descMap_after, alookup_interestEffect_false, hr]
  simp [hall]

theorem interest_false_keeps (k : InterestKind) {s : CoreState}
    {h smv : Nat} {fd : Int} {r : FileDescriptor}
    (hreg : alookup s.fileHandlerToFileHandlerSm h = some smv)
    (hnz : smv ≠ 0) (hr : alookup (descMap s smv) fd = some r)
    (hall : allFlagsFalse (setFlag k false (r.descriptorIs fd)) = false) :
    ∃ s', interest_is k h fd false s = some s' ∧
      alookup (descMap s' smv) fd =
        some (setFlag k false (r.descriptorIs fd)) ∧
      (∀ fd', fd' ≠ fd → alookup (descMap s' smv) fd' =
        alookup (descMap s smv) fd') := by
  refine ⟨_, interest_is_eq k h fd false s smv hreg hnz, ?_, ?_⟩
  · rw [descMap_after, alookup_interestEffect_false, hr]
    simp [hall]
  · intro fd' hfd
    rw [descMap_after, alookup_interestEffect_ne k false _ hfd]

theorem interest_false_absent (k : InterestKind) {s : CoreState}
    {h smv : Nat} {fd : Int}
    (hreg : alookup s.fileHandlerToFileHandlerSm h = some smv)
    (hnz : smv ≠ 0) (hnone : alookup (descMap s smv) fd = none) :
    ∃ s', interest_is k h fd false s = some s' ∧
      descMap s' smv = descMap s smv ∧
      alookup (descMap s' smv) fd = none := by
  have hE : interestEffect k fd false (descMap s smv) = descMap s smv := by
    unfold interestEffect
    simp only []
    rw [hnone]
    simp only [Option.getD_none, Bool.false_eq_true, if_false]
    rw [if_pos (allFlagsFalse_fresh_set k fd)]
    exact aerase_eq_of_alookup_none hnone
  refine ⟨_, interest_is_eq k h fd false s smv hreg hnz, ?_, ?_⟩
  · rw [descMap_after, hE]
  · rw [descMap_after, hE]
    exact hnone

theorem handleEvent_state_eq {k₀ : InterestKind} {smv : Nat} {fd : Int}
    {s : CoreState} {fh : Nat} {k : InterestKind} {d : Int} {s' : CoreState}
    (hx : handleEvent k₀ smv fd s = some (fh, k, d, s')) : s' = s := by
  unfold handleEvent at hx
  cases hl : alookup s.fileHandlerSmToFileHandler smv with
  | none =>
      rw [hl] at hx
      exact Option.noConfusion hx
  | some fh' =>
      rw [hl] at hx
      simp only [] at hx
      by_cases hz : fh' = 0
      · rw [if_pos hz] at hx
        exact Option.noConfusion hx
      · rw [if_neg hz] at hx
        injection hx with hx
        have h2 := congrArg (fun p : Nat × InterestKind × Int × CoreState =>
          p.2.2.2) hx
        exact h2.symm

/-- C6: delivering a Readable (resp. Writable, ExceptionPending) event for
a DescriptorState owned by handler `fh`'s registered node invokes exactly
`fh`'s on_readable (resp. on_writable, on_exception) callback, passing that
DescriptorState's descriptor number, and no other handler's callback (the
dispatch result names exactly one handler). -/
theorem c6_dispatch_correctness (s : CoreState) (smv fh : Nat) (fd : Int)
    (r : FileDescriptor)
    (hres : alookup s.fileHandlerSmToFileHandler smv = some fh)
    (hnz : fh ≠ 0)
    (hr : alookup (descMap s smv) fd = some r)
    (hdesc : r.descriptor = fd) :
    handleReadable smv fd s =
      some (fh, InterestKind.readable, r.descriptor, s) ∧
    handleWritable smv fd s =
      some (fh, InterestKind.writable, r.descriptor, s) ∧
    handleExceptionPending smv fd s =
      some (fh, InterestKind.exception, r.descriptor, s) := by
  rw [hdesc]
  refine ⟨?_, ?_, ?_⟩ <;>
    simp [handleReadable, handleWritable, handleExceptionPending,
      handleEvent, hres, hnz]

theorem c6_dispatch_correctness_witness :
    handleReadable 1 5 exRec =
      some (1, InterestKind.readable, (5 : Int), exRec) ∧
    handleWritable 1 5 exRec =
      some (1, InterestKind.writable, (5 : Int), exRec) ∧
    handleExceptionPending 1 5 exRec =
      some (1, InterestKind.exception, (5 : Int), exRec) :=
  c6_dispatch_correctness exRec 1 1 5 (FileDescriptor.mk 5 true false false)
    (by decide) (by decide) (by decide) (by decide)

/-- C7: after handler `h` is destroyed, delivering any readiness event for
its former state-machine node reaches the failed `assert( fh )` — the
process aborts (modelled `none`) — and no handler callback is invoked. -/
theorem c7_post_teardown_fatal (s : CoreState) (h smv : Nat) (fd : Int)
    (hreg : alookup s.fileHandlerToFileHandlerSm h = some smv) :
    handleReadable smv fd (file_handler_dtor h s) = none ∧
    handleWritable smv fd (file_handler_dtor h s) = none ∧
    handleExceptionPending smv fd (file_handler_dtor h s) = none := by
  have hs2h : (file_handler_dtor h s).fileHandlerSmToFileHandler =
      aerase s.fileHandlerSmToFileHandler smv := by
    rw [dtor_s2h, hreg]
    rfl
  refine ⟨?_, ?_, ?_⟩ <;>
    simp [handleReadable, handleWritable, handleExceptionPending,
      handleEvent, hs2h, alookup_aerase_self]

theorem c7_post_teardown_fatal_witness :
    handleReadable 1 5 (file_handler_dtor 1 exReg) = none ∧
    handleWritable 1 5 (file_handler_dtor 1 exReg) = none ∧
    handleExceptionPending 1 5 (file_handler_dtor 1 exReg) = none :=
  c7_post_teardown_fatal exReg 1 1 5 (by decide)

/-- C8: the dispatch adapter mutates no core state: whenever a readiness
event completes (does not abort), the state handed to the invoked callback
is exactly the state before dispatch. -/
theorem c8_adapter_no_mutation (s s' : CoreState) (smv fh : Nat)
    (fd d : Int) (k : InterestKind) :
    (handleReadable smv fd s = some (fh, k, d, s') → s' = s) ∧
    (handleWritable smv fd s = some (fh, k, d, s') → s' = s) ∧
    (handleExceptionPending smv fd s = some (fh, k, d, s') → s' = s) :=
  ⟨fun hx => handleEvent_state_eq hx, fun hx => handleEvent_state_eq hx,
    fun hx => handleEvent_state_eq hx⟩

theorem c8_adapter_no_mutation_witness : exReg = exReg :=
  (c8_adapter_no_mutation exReg exReg 1 1 5 5 InterestKind.readable).1
    (by decide)

/-- C10: for every sdk manager getter, assuming the corresponding
`init_*_mgr` assigns a non-null pointer `v`, the first call on an
uninitialized sdk invokes the initializer and returns `v`, and a subsequent
call returns the same pointer and leaves the state unchanged without
invoking the initializer again — so the initializer runs at most once per
sdk object and the getter is idempotent. -/
theorem c10_sdk_getters_lazy_init (s : SdkState) (v : Nat) (hv : v ≠ 0) :
    (s.acl_mgr_ = 0 →
      get_acl_mgr v s = (v, init_acl_mgr v s, true) ∧
      get_acl_mgr v (init_acl_mgr v s) =
        (v, init_acl_mgr v s, false)) ∧
    (s.agent_mgr_ = 0 →
      get_agent_mgr v s = (v, init_agent_mgr v s, true) ∧
      get_agent_mgr v (init_agent_mgr v s) =
        (v, init_agent_mgr v s, false)) ∧
    (s.decap_group_mgr_ = 0 →
      get_decap_group_mgr v s = (v, init_decap_group_mgr v s, true) ∧
      get_decap_group_mgr v (init_decap_group_mgr v s) =
        (v, init_decap_group_mgr v s, false)) ∧
    (s.directflow_mgr_ = 0 →
      get_directflow_mgr v s = (v, init_directflow_mgr v s, true) ∧
      get_directflow_mgr v (init_directflow_mgr v s) =
        (v, init_directflow_mgr v s, false)) ∧
    (s.eth_intf_mgr_ = 0 →
      get_eth_intf_mgr v s = (v, init_eth_intf_mgr v s, true) ∧
      get_eth_intf_mgr v (init_eth_intf_mgr v s) =
        (v, init_eth_intf_mgr v s, false)) ∧
    (s.eth_phy_intf_mgr_ = 0 →
      get_eth_phy_intf_mgr v s = (v, init_eth_phy_intf_mgr v s, true) ∧
      get_eth_phy_intf_mgr v (init_eth_phy_intf_mgr v s) =
        (v, init_eth_phy_intf_mgr v s, false)) ∧
    (s.fib_mgr_ = 0 →
      get_fib_mgr v s = (v, init_fib_mgr v s, true) ∧
      get_fib_mgr v (init_fib_mgr v s) =
        (v, init_fib_mgr v s, false)) ∧
    (s.intf_mgr_ = 0 →
      get_intf_mgr v s = (v, init_intf_mgr v s, true) ∧
      get_intf_mgr v (init_intf_mgr v s) =
        (v, init_intf_mgr v s, false)) ∧
    (s.ip_route_mgr_ = 0 →
      get_ip_route_mgr v s = (v, init_ip_route_mgr v s, true) ∧
      get_ip_route_mgr v (init_ip_route_mgr v s) =
        (v, init_ip_route_mgr v s, false)) ∧
    (s.mac_table_mgr_ = 0 →
      get_mac_table_mgr v s = (v, init_mac_table_mgr v s, true) ∧
      get_mac_table_mgr v (init_mac_table_mgr v s) =
        (v, init_mac_table_mgr v s, false)) ∧
    (s.mlag_mgr_ = 0 →
      get_mlag_mgr v s = (v, init_mlag_mgr v s, true) ∧
      get_mlag_mgr v (init_mlag_mgr v s) =
        (v, init_mlag_mgr v s, false)) ∧
    (s.mount_mgr_ = 0 →
      get_mount_mgr v s = (v, init_mount_mgr v s, true) ∧
      get_mount_mgr v (init_mount_mgr v s) =
        (v, init_mount_mgr v s, false)) ∧
    (s.mpls_route_mgr_ = 0 →
      get_mpls_route_mgr v s = (v, init_mpls_route_mgr v s, true) ∧
      get_mpls_route_mgr v (init_mpls_route_mgr v s) =
        (v, init_mpls_route_mgr v s, false)) ∧
    (s.neighbor_table_mgr_ = 0 →
      get_neighbor_table_mgr v s = (v, init_neighbor_table_mgr v s, true) ∧
      get_neighbor_table_mgr v (init_neighbor_table_mgr v s) =
        (v, init_neighbor_table_mgr v s, false)) ∧
    (s.nexthop_group_mgr_ = 0 →
      get_nexthop_group_mgr v s = (v, init_nexthop_group_mgr v s, true) ∧
      get_nexthop_group_mgr v (init_nexthop_group_mgr v s) =
        (v, init_nexthop_group_mgr v s, false)) ∧
    (s.policy_map_mgr_ = 0 →
      get_policy_map_mgr v s = (v, init_policy_map_mgr v s, true) ∧
      get_policy_map_mgr v (init_policy_map_mgr v s) =
        (v, init_policy_map_mgr v s, false)) ∧
    (s.system_mgr_ = 0 →
      get_system_mgr v s = (v, init_system_mgr v s, true) ∧
      get_system_mgr v (init_system_mgr v s) =
        (v, init_system_mgr v s, false)) := by
  refine ⟨?_, ?_, ?_, ?_, ?_, ?_, ?_, ?_, ?_, ?_, ?_, ?_, ?_, ?_, ?_, ?_, ?_⟩
  · intro h0
    exact ⟨by simp [get_acl_mgr, init_acl_mgr, h0],
      by simp [get_acl_mgr, init_acl_mgr, hv]⟩
  · intro h0
    exact ⟨by simp [get_agent_mgr, init_agent_mgr, h0],
      by simp [get_agent_mgr, init_agent_mgr, hv]⟩
  · intro h0
    exact ⟨by simp [get_decap_group_mgr, init_decap_group_mgr, h0],
      by simp [get_decap_group_mgr, init_decap_group_mgr, hv]⟩
  · intro h0
    exact ⟨by simp [get_directflow_mgr, init_directflow_mgr, h0],
      by simp [get_directflow_mgr, init_directflow_mgr, hv]⟩
  · intro h0
    exact ⟨by simp [get_eth_intf_mgr, init_eth_intf_mgr, h0],
      by simp [get_eth_intf_mgr, init_eth_intf_mgr, hv]⟩
  · intro h0
    exact ⟨by simp [get_eth_phy_intf_mgr, init_eth_phy_intf_mgr, h0],
      by simp [get_eth_phy_intf_mgr, init_eth_phy_intf_mgr, hv]⟩
  · intro h0
    exact ⟨by simp [get_fib_mgr, init_fib_mgr, h0],
      by simp [get_fib_mgr, init_fib_mgr, hv]⟩
  · intro h0
    exact ⟨by simp [get_intf_mgr, init_intf_mgr, h0],
      by simp [get_intf_mgr, init_intf_mgr, hv]⟩
  · intro h0
    exact ⟨by simp [get_ip_route_mgr, init_ip_route_mgr, h0],
      by simp [get_ip_route_mgr, init_ip_route_mgr, hv]⟩
  · intro h0
    exact ⟨by simp [get_mac_table_mgr, init_mac_table_mgr, h0],
      by simp [get_mac_table_mgr, init_mac_table_mgr, hv]⟩
  · intro h0
    exact ⟨by simp [get_mlag_mgr, init_mlag_mgr, h0],
      by simp [get_mlag_mgr, init_mlag_mgr, hv]⟩
  · intro h0
    exact ⟨by simp [get_mount_mgr, init_mount_mgr, h0],
      by simp [get_mount_mgr, init_mount_mgr, hv]⟩
  · intro h0
    exact ⟨by simp [get_mpls_route_mgr, init_mpls_route_mgr, h0],
      by simp [get_mpls_route_mgr, init_mpls_route_mgr, hv]⟩
  · intro h0
    exact ⟨by simp [get_neighbor_table_mgr, init_neighbor_table_mgr, h0],
      by simp [get_neighbor_table_mgr, init_neighbor_table_mgr, hv]⟩
  · intro h0
    exact ⟨by simp [get_nexthop_group_mgr, init_nexthop_group_mgr, h0],
      by simp [get_nexthop_group_mgr, init_nexthop_group_mgr, hv]⟩
  · intro h0
    exact ⟨by simp [get_policy_map_mgr, init_policy_map_mgr, h0],
      by simp [get_policy_map_mgr, init_policy_map_mgr, hv]⟩
  · intro h0
    exact ⟨by simp [get_system_mgr, init_system_mgr, h0],
      by simp [get_system_mgr, init_system_mgr, hv]⟩

theorem c10_sdk_getters_lazy_init_witness :
    (1 : Nat) ≠ 0 ∧ initSdkState.acl_mgr_ = 0 ∧
    (get_acl_mgr 1 initSdkState = (1, init_acl_mgr 1 initSdkState, true) ∧
      get_acl_mgr 1 (init_acl_mgr 1 initSdkState) =
        (1, init_acl_mgr 1 initSdkState, false)) :=
  ⟨by decide, by decide,
    (c10_sdk_getters_lazy_init initSdkState 1 (by decide)).1 (by decide)⟩

/-- C2: for a registered handler with a DescriptorState for `fd`, the
interest setter that clears the last remaining true flag
(`interest = false`) removes the DescriptorState from the handler's
mapping, while a setter called with `interest = false` when at least one
other flag remains true leaves it present. -/
theorem c2_eager_cleanup (s : CoreState) (h smv : Nat) (fd : Int)
    (r : FileDescriptor)
    (hreg : alookup s.fileHandlerToFileHandlerSm h = some smv)
    (hnz : smv ≠ 0)
    (hr : alookup (descMap s smv) fd = some r) :
    (r.notifyOnReadable = true → r.notifyOnWritable = false →
      r.notifyOnException = false →
      ∃ s', read_interest_is h fd false s = some s' ∧
        alookup (descMap s' smv) fd = none) ∧
    (r.notifyOnWritable = true ∨ r.notifyOnException = true →
      ∃ s' r', read_interest_is h fd false s = some s' ∧
        alookup (descMap s' smv) fd = some r') ∧
    (r.notifyOnWritable = true → r.notifyOnReadable = false →
      r.notifyOnException = false →
      ∃ s', write_interest_is h fd false s = some s' ∧
        alookup (descMap s' smv) fd = none) ∧
    (r.notifyOnReadable = true ∨ r.notifyOnException = true →
      ∃ s' r', write_interest_is h fd false s = some s' ∧
        alookup (descMap s' smv) fd = some r') ∧
    (r.notifyOnException = true → r.notifyOnReadable = false →
      r.notifyOnWritable = false →
      ∃ s', exception_interest_is h fd false s = some s' ∧
        alookup (descMap s' smv) fd = none) ∧
    (r.notifyOnReadable = true ∨ r.notifyOnWritable = true →
      ∃ s' r', exception_interest_is h fd false s = some s' ∧
        alookup (descMap s' smv) fd = some r') := by
  refine ⟨?_, ?_, ?_, ?_, ?_, ?_⟩
  · intro _ h2 h3
    exact interest_false_removes .readable hreg hnz hr
      (by simp [allFlagsFalse, setFlag, FileDescriptor.notifyOnReadableIs,
        FileDescriptor.descriptorIs, h2, h3])
  · intro h1
    have hall : allFlagsFalse (setFlag InterestKind.readable false
        (r.descriptorIs fd)) = false := by
      rcases h1 with h1 | h1 <;>
        simp [allFlagsFalse, setFlag, FileDescriptor.notifyOnReadableIs,
          FileDescriptor.descriptorIs, h1]
    obtain ⟨s', hs', hl, _⟩ :=
      interest_false_keeps InterestKind.readable hreg hnz hr hall
    exact ⟨s', _, hs', hl⟩
  · intro _ h2 h3
    exact interest_false_removes .writable hreg hnz hr
      (by simp [allFlagsFalse, setFlag, FileDescriptor.notifyOnWritableIs,
        FileDescriptor.descriptorIs, h2, h3])
  · intro h1
    have hall : allFlagsFalse (setFlag InterestKind.writable false
        (r.descriptorIs fd)) = false := by
      rcases h1 with h1 | h1 <;>
        simp [allFlagsFalse, setFlag, FileDescriptor.notifyOnWritableIs,
          FileDescriptor.descriptorIs, h1]
    obtain ⟨s', hs', hl, _⟩ :=
      interest_false_keeps InterestKind.writable hreg hnz hr hall
    exact ⟨s', _, hs', hl⟩
  · intro _ h2 h3
    exact interest_false_removes .exception hreg hnz hr
      (by simp [allFlagsFalse, setFlag, FileDescriptor.notifyOnExceptionIs,
        FileDescriptor.descriptorIs, h2, h3])
  · intro h1
    have hall : allFlagsFalse (setFlag InterestKind.exception false
        (r.descriptorIs fd)) = false := by
      rcases h1 with h1 | h1 <;>
        simp [allFlagsFalse, setFlag, FileDescriptor.notifyOnExceptionIs,
          FileDescriptor.descriptorIs, h1]
    obtain ⟨s', hs', hl, _⟩ :=
      interest_false_keeps InterestKind.exception hreg hnz hr hall
    exact ⟨s', _, hs', hl⟩

theorem c2_eager_cleanup_witness :
    ∃ s', read_interest_is 1 5 false exRec = some s' ∧
      alookup (descMap s' 1) 5 = none :=
  (c2_eager_cleanup exRec 1 1 5 (FileDescriptor.mk 5 true false false)
    (by decide) (by decide) (by decide)).1 (by decide) (by decide)
    (by decide)

/-- C3: with a registered handler and no DescriptorState for `fd`, an
interest-setter call with `interest = true` creates exactly one
DescriptorState for `fd` (its descriptor field equal to `fd`), and a second
identical call does not create a second one.  `k` ranges over
`read_interest_is`, `write_interest_is` and `exception_interest_is`. -/
theorem c3_lazy_creation (k : InterestKind) (s : CoreState) (h smv : Nat)
    (fd : Int)
    (hreg : alookup s.fileHandlerToFileHandlerSm h = some smv)
    (hnz : smv ≠ 0)
    (hzero : countKey (descMap s smv) fd = 0) :
    ∃ s' s'' r,
      interest_is k h fd true s = some s' ∧
      countKey (descMap s' smv) fd = 1 ∧
      alookup (descMap s' smv) fd = some r ∧
      r.descriptor = fd ∧
      interest_is k h fd true s' = some s'' ∧
      countKey (descMap s'' smv) fd = 1 := by
  have hn : alookup (descMap s smv) fd = none :=
    alookup_none_of_countKey_zero hzero
  refine ⟨_, _, setFlag k true (FileDescriptor.fresh.descriptorIs fd),
    interest_is_eq k h fd true s smv hreg hnz, ?_, ?_, ?_,
    interest_is_eq k h fd true _ smv hreg hnz, ?_⟩
  · rw [descMap_after, interestEffect_true_eq]
    exact countKey_ainsert_self _ _ _
  · rw [descMap_after, interestEffect_true_eq, hn, alookup_ainsert_self]
    rfl
  · rw [setFlag_descriptor]
    exact descriptorIs_descriptor _ _
  · rw [descMap_after, interestEffect_true_eq]
    exact countKey_ainsert_self _ _ _

theorem c3_lazy_creation_witness :
    ∃ s' s'' r,
      interest_is InterestKind.readable 1 5 true exReg = some s' ∧
      countKey (descMap s' 1) 5 = 1 ∧
      alookup (descMap s' 1) 5 = some r ∧
      r.descriptor = 5 ∧
      interest_is InterestKind.readable 1 5 true s' = some s'' ∧
      countKey (descMap s'' 1) 5 = 1 :=
  c3_lazy_creation InterestKind.readable exReg 1 1 5 (by decide) (by decide)
    (by decide)

/-- C9: calling an interest setter with `interest = false` when the flag
is already false is safe: with no DescriptorState for `fd` the collection
is unchanged (so no record for `fd` persists), and with a record kept
alive by another true flag the record stays present with all flag values
unchanged and no other descriptor's record affected.  `k` ranges over the
three setters. -/
theorem c9_clear_already_false_safe (k : InterestKind) (s : CoreState)
    (h smv : Nat) (fd : Int)
    (hreg : alookup s.fileHandlerToFileHandlerSm h = some smv)
    (hnz : smv ≠ 0) :
    (alookup (descMap s smv) fd = none →
      ∃ s', interest_is k h fd false s = some s' ∧
        descMap s' smv = descMap s smv ∧
        alookup (descMap s' smv) fd = none) ∧
    (∀ r k', alookup (descMap s smv) fd = some r → getFlag k r = false →
      k' ≠ k → getFlag k' r = true →
      ∃ s' r', interest_is k h fd false s = some s' ∧
        alookup (descMap s' smv) fd = some r' ∧
        (∀ k'', getFlag k'' r' = getFlag k'' r) ∧
        (∀ fd', fd' ≠ fd → alookup (descMap s' smv) fd' =
          alookup (descMap s smv) fd')) := by
  constructor
  · intro hnone
    exact interest_false_absent k hreg hnz hnone
  · intro r k' hr hk hne hk'
    have hflag : getFlag k' (setFlag k false (r.descriptorIs fd)) = true := by
      rw [getFlag_setFlag_ne false _ hne, getFlag_descriptorIs]
      exact hk'
    have hall : allFlagsFalse (setFlag k false (r.descriptorIs fd)) = false :=
      allFlagsFalse_eq_false_of_flag hflag
    obtain ⟨s', hs', hl, hother⟩ := interest_false_keeps k hreg hnz hr hall
    refine ⟨s', setFlag k false (r.descriptorIs fd), hs', hl, ?_, hother⟩
    intro k''
    by_cases hkk : k'' = k
    · subst hkk
      rw [getFlag_setFlag_self]
      exact hk.symm
    · rw [getFlag_setFlag_ne false _ hkk, getFlag_descriptorIs]

theorem c9_clear_already_false_safe_witness :
    ∃ s' r', interest_is InterestKind.writable 1 5 false exRec = some s' ∧
      alookup (descMap s' 1) 5 = some r' ∧
      (∀ k'', getFlag k'' r' =
        getFlag k'' (FileDescriptor.mk 5 true false false)) ∧
      (∀ fd', fd' ≠ 5 → alookup (descMap s' 1) fd' =
        alookup (descMap exRec 1) fd') :=
  (c9_clear_already_false_safe InterestKind.writable exRec 1 1 5
    (by decide) (by decide)).2 (FileDescriptor.mk 5 true false false)
    InterestKind.readable (by decide) (by decide) (by decide) (by decide)

/-- C5: calling an interest setter with value `v` equal to the flag's
current value twice in succession produces the same observable core state
as calling it once: the second call returns exactly the first call's
state.  `k` ranges over the three setters. -/
theorem c5_idempotence (k : InterestKind) (s : CoreState) (h smv : Nat)
    (fd : Int) (v : Bool)
    (hreg : alookup s.fileHandlerToFileHandlerSm h = some smv)
    (hnz : smv ≠ 0)
    (hcur : ((alookup (descMap s smv) fd).map (getFlag k)).getD false = v) :
    ∃ s', interest_is k h fd v s = some s' ∧
      interest_is k h fd v s' = some s' := by
  refine ⟨_, interest_is_eq k h fd v s smv hreg hnz, ?_⟩
  have hreg1 : alookup ({ s with
      smDescriptors := ainsert s.smDescriptors smv
        (interestEffect k fd v (descMap s smv)) } :
      CoreState).fileHandlerToFileHandlerSm h = some smv := hreg
  rw [interest_is_eq k h fd v _ smv hreg1 hnz]
  rw [descMap_after, interestEffect_idem]
  simp [ainsert_ainsert_self]

theorem c5_idempotence_witness :
    ∃ s', interest_is InterestKind.readable 1 5 true exRec = some s' ∧
      interest_is InterestKind.readable 1 5 true s' = some s' :=
  c5_idempotence InterestKind.readable exRec 1 1 5 true (by decide)
    (by decide) (by decide)

/-- C1: for every valid sequence of handler constructions and destructions
(interleaved with interest calls), the two registry maps of the resulting
state are exact inverses restricted to the live handlers — an entry
`(h, sm)` is in one map iff `(sm, h)` is in the other — and every live
handler has exactly one binding, hence exactly one HandlerState. -/
theorem c1_registry_bijection (ops : List Op)
    (hv : validOps initState ops = true) :
    ∃ s', runOps initState ops = some s' ∧
      (∀ h smv, alookup s'.fileHandlerToFileHandlerSm h = some smv ↔
          alookup s'.fileHandlerSmToFileHandler smv = some h) ∧
      (∀ h, (alookup s'.fileHandlerToFileHandlerSm h).isSome = true →
          countKey s'.fileHandlerToFileHandlerSm h = 1) := by
  obtain ⟨s', hrun, hinv⟩ :=
    validOps_registryInv ops initState registryInv_initState hv
  obtain ⟨hiff, _, hcnt, _⟩ := hinv
  refine ⟨s', hrun, hiff, ?_⟩
  intro h hsome
  obtain ⟨smv, hsm⟩ := Option.isSome_iff_exists.mp hsome
  exact le_antisymm (hcnt h) (countKey_pos_of_alookup_some hsm)

theorem c1_registry_bijection_witness :
    validOps initState [Op.opCtor 1, Op.opCtor 2, Op.opDtor 1] = true ∧
    (∃ s', runOps initState [Op.opCtor 1, Op.opCtor 2, Op.opDtor 1] =
        some s' ∧
      (∀ h smv, alookup s'.fileHandlerToFileHandlerSm h = some smv ↔
          alookup s'.fileHandlerSmToFileHandler smv = some h) ∧
      (∀ h, (alookup s'.fileHandlerToFileHandlerSm h).isSome = true →
          countKey s'.fileHandlerToFileHandlerSm h = 1)) :=
  ⟨by decide, c1_registry_bijection _ (by decide)⟩

/-- C4: after any sequence of completed public operations from the initial
state — in particular after every completed `read_interest_is`,
`write_interest_is` or `exception_interest_is` call — every DescriptorState
present in its owning state machine's collection has at least one of its
three interest flags true (a record exists iff some flag is set; the only
all-false records are the transient ones inside a setter call). -/
theorem c4_record_iff_flag (ops : List Op) (s' : CoreState)
    (hrun : runOps initState ops = some s') :
    ∀ smv fds, alookup s'.smDescriptors smv = some fds →
      ∀ fd r, alookup fds fd = some r →
        r.notifyOnReadable = true ∨ r.notifyOnWritable = true ∨
          r.notifyOnException = true :=
  runOps_descInv ops initState s' descInv_initState hrun

theorem c4_record_iff_flag_witness :
    runOps initState
      [Op.opCtor 1, Op.opInterest InterestKind.readable 1 5 true] =
        some exRec ∧
    ((FileDescriptor.mk 5 true false false).notifyOnReadable = true ∨
      (FileDescriptor.mk 5 true false false).notifyOnWritable = true ∨
      (FileDescriptor.mk 5 true false false).notifyOnException = true) :=
  ⟨by decide,
    c4_record_iff_flag
      [Op.opCtor 1, Op.opInterest InterestKind.readable 1 5 true] exRec
      (by decide) 1 [(5, FileDescriptor.mk 5 true false false)] (by decide)
      5 (FileDescriptor.mk 5 true false false) (by decide)⟩
